import Mathlib

/-!
Verification of the fetch–aggregate–classify pipeline of `src/app.py`.

The Python program polls a market-data provider one instrument at a time
(`get_stock_data_individual`), folds each successful snapshot into per-position
metrics and running portfolio totals inside `main`'s loop, and classifies each
position's stop-loss risk.  Prices and quantities are embedded as rationals
(`ℚ`); the provider call is abstracted as an `Except` value (rows on success,
an error on any transport/provider failure), matching the `try/except` around
the `akshare` call.
-/

namespace BigA

/-- One row of the daily history DataFrame returned by `ak.stock_zh_a_hist`
(columns used by the app: 日期/date, 开盘/open, 最高/high, 最低/low, 收盘/close).
Rows are ordered ascending by date. -/
structure HistRow where
  date : String
  open_px : ℚ
  high : ℚ
  low : ℚ
  close : ℚ
deriving Repr, DecidableEq

/-- One holding from `holdings.json` (fields read by `main`). -/
structure Holding where
  code : String
  name : String
  quantity : ℚ
  cost_price : ℚ
  stop_loss_pct : ℚ
deriving Repr, DecidableEq

/-- The dict returned by `get_stock_data_individual` on success
(`src/app.py` lines 67–74). -/
structure StockData where
  code : String
  name : String
  current_price : ℚ
  pct_change : ℚ
  day_profit_per_share : ℚ
  history_df : List HistRow
deriving Repr, DecidableEq

/-- Reasons the abstracted provider call can raise (network failure, malformed
response, rate-limit rejection, ...).  The Python code catches every
`Exception` alike, so the constructors only label the raised error. -/
inductive ProviderError where
  | network
  | malformed
  | rateLimit
deriving Repr, DecidableEq

/-- `get_stock_data_individual` (`src/app.py` lines 34–78).  The provider call
`ak.stock_zh_a_hist(...)` is abstracted as its outcome: `Except.error` when it
raises, `Except.ok df` when it returns a DataFrame.  An empty DataFrame yields
`none` (line 48–49); any raised error is caught by the `except` clause and also
yields `none` (lines 76–78).  `df.iloc[-1]` / `df.iloc[-2]` are the head and
second element of the reversed row list. -/
def get_stock_data_individual (code name : String)
    (provider : Except ProviderError (List HistRow)) : Option StockData :=
  match provider with
  | Except.error _ => none
  | Except.ok df =>
    match df.reverse with
    | [] => none
    | latest :: rest =>
      match rest with
      | [] =>
        some { code := code, name := name,
               current_price := latest.close,
               pct_change := 0,
               day_profit_per_share := 0,
               history_df := df }
      | prev :: _ =>
        some { code := code, name := name,
               current_price := latest.close,
               pct_change := (latest.close - prev.close) / prev.close * 100,
               day_profit_per_share := latest.close - prev.close,
               history_df := df }

/-- The three risk labels produced by `main` (`src/app.py` lines 139–144):
`安全` (safe), `⚡ 接近止损` (warning), `⚠️ 触发止损` (breach). -/
inductive RiskStatus where
  | safe
  | warning
  | breach
deriving Repr, DecidableEq

/-- The risk-classification branch of `main` (`src/app.py` lines 139–144):
start from `安全`, overwrite with `触发止损` when `distance < 0`, else with
`接近止损` when `distance < 0.03`. -/
def classify (profit_pct stop_loss_pct : ℚ) : RiskStatus :=
  let distance := profit_pct / 100 - stop_loss_pct
  if distance < 0 then RiskStatus.breach
  else if distance < 3 / 100 then RiskStatus.warning
  else RiskStatus.safe

/-- One row appended to `portfolio_data` (`src/app.py` lines 146–158).
`pct_change` is stored as the underlying number (the code formats it into a
string for display only); `stop_loss_line` is `stop_loss_pct * 100`. -/
structure PositionMetrics where
  code : String
  name : String
  quantity : ℚ
  cost : ℚ
  current : ℚ
  pct_change : ℚ
  profit : ℚ
  profit_pct : ℚ
  day_profit : ℚ
  risk_status : RiskStatus
  stop_loss_line : ℚ
deriving Repr, DecidableEq

/-- The row `main` appends for a successful holding (`src/app.py` lines
124–158), with the derived quantities named as in the code. -/
def mk_position_metrics (stock : Holding) (data : StockData) : PositionMetrics :=
  let qty := stock.quantity
  let cost := stock.cost_price
  let current := data.current_price
  let profit := (current - cost) * qty
  let profit_pct := (current - cost) / cost * 100
  let day_profit := data.day_profit_per_share * qty
  { code := stock.code, name := stock.name, quantity := qty, cost := cost,
    current := current, pct_change := data.pct_change,
    profit := profit, profit_pct := profit_pct, day_profit := day_profit,
    risk_status := classify profit_pct stock.stop_loss_pct,
    stop_loss_line := stock.stop_loss_pct * 100 }

/-- The accumulator state of `main`'s loop (`src/app.py` lines 96–106):
`portfolio_data`, the three running totals, and `history_cache`. -/
structure CycleState where
  portfolio_data : List PositionMetrics
  total_asset : ℚ
  total_profit : ℚ
  total_day_profit : ℚ
  history_cache : List (String × List HistRow)
deriving Repr, DecidableEq

/-- The state at the top of a cycle (`src/app.py` lines 96–106): empty list,
all totals zero, empty cache. -/
def init_cycle_state : CycleState :=
  { portfolio_data := [], total_asset := 0, total_profit := 0,
    total_day_profit := 0, history_cache := [] }

/-- The loop body of `main` for one holding given its fetch outcome
(`src/app.py` lines 117–158): on `None` nothing happens; on a snapshot the
cache, the three totals and `portfolio_data` are extended. -/
def process_holding (state : CycleState) (stock : Holding)
    (data : Option StockData) : CycleState :=
  match data with
  | none => state
  | some d =>
    let qty := stock.quantity
    let cost := stock.cost_price
    let current := d.current_price
    let market_val := current * qty
    let profit := (current - cost) * qty
    let day_profit := d.day_profit_per_share * qty
    { portfolio_data := state.portfolio_data ++ [mk_position_metrics stock d],
      total_asset := state.total_asset + market_val,
      total_profit := state.total_profit + profit,
      total_day_profit := state.total_day_profit + day_profit,
      history_cache := state.history_cache ++ [(stock.code, d.history_df)] }

/-- `main`'s loop over the holdings (`src/app.py` lines 108–161), folding each
holding's fetch outcome into the accumulator, starting from the all-zero
state. -/
def run_cycle (fetch : Holding → Option StockData) (holdings : List Holding) :
    CycleState :=
  holdings.foldl (fun st stock => process_holding st stock (fetch stock))
    init_cycle_state

/-- The post-loop check of `main` (`src/app.py` lines 167–169): an empty
`portfolio_data` is escalated to the user as a cycle-level failure
(`st.error` + `st.stop`); otherwise the cycle completes with its state. -/
inductive CycleReport where
  | allHoldingsFailed
  | completed (state : CycleState)
deriving Repr, DecidableEq

/-- The cycle outcome as surfaced by `main` (`src/app.py` lines 108–169). -/
def run_main_cycle (fetch : Holding → Option StockData)
    (holdings : List Holding) : CycleReport :=
  let st := run_cycle fetch holdings
  if st.portfolio_data.isEmpty then CycleReport.allHoldingsFailed
  else CycleReport.completed st

/-- Observable events of one loop iteration, for the rate-limiting claim:
the progress text update (line 113), the fetch call (line 117) and the
`time.sleep(0.2)` (line 161). -/
inductive Event where
  | progressText (name : String)
  | fetchCall (code : String)
  | sleepSec (seconds : ℚ)
deriving Repr, DecidableEq

/-- The trace of one loop iteration of `main` (`src/app.py` lines 108–161):
progress update, fetch call, then the unconditional 0.2 s sleep. -/
def iteration_trace (stock : Holding) : List Event :=
  [Event.progressText stock.name, Event.fetchCall stock.code,
   Event.sleepSec (2 / 10)]

/-- The event trace of one whole cycle of `main`'s loop. -/
def cycle_trace (holdings : List Holding) : List Event :=
  holdings.flatMap iteration_trace

/-! ### Helper lemmas -/

/-- Full characterization of `main`'s fold over any starting accumulator:
each field of the final state is the starting field extended by the
contributions of exactly the holdings whose fetch succeeded, in order. -/
theorem foldl_state_characterization (fetch : Holding → Option StockData)
    (hs : List Holding) : ∀ st : CycleState,
    hs.foldl (fun st stock => process_holding st stock (fetch stock)) st
      = { portfolio_data := st.portfolio_data
            ++ hs.filterMap (fun h => (fetch h).map (mk_position_metrics h)),
          total_asset := st.total_asset
            + (hs.filterMap (fun h =>
                (fetch h).map (fun d => d.current_price * h.quantity))).sum,
          total_profit := st.total_profit
            + (hs.filterMap (fun h =>
                (fetch h).map (fun d =>
                  (d.current_price - h.cost_price) * h.quantity))).sum,
          total_day_profit := st.total_day_profit
            + (hs.filterMap (fun h =>
                (fetch h).map (fun d =>
                  d.day_profit_per_share * h.quantity))).sum,
          history_cache := st.history_cache
            ++ hs.filterMap (fun h =>
                (fetch h).map (fun d => (h.code, d.history_df))) } := by
  induction hs with
  | nil => intro st; simp
  | cons h t ih =>
    intro st
    rw [List.foldl_cons, ih]
    cases hf : fetch h with
    | none =>
      simp [process_holding, hf]
    | some d =>
      simp [process_holding, hf, mk_position_metrics, List.append_assoc,
        add_assoc]

/-- The list of position rows produced by a cycle is the in-order
`filterMap` of the holdings through their fetch outcomes. -/
theorem run_cycle_portfolio_eq (fetch : Holding → Option StockData)
    (hs : List Holding) :
    (run_cycle fetch hs).portfolio_data
      = hs.filterMap (fun h => (fetch h).map (mk_position_metrics h)) := by
  rw [run_cycle, foldl_state_characterization]
  simp [init_cycle_state]

/-! ### Claim theorems -/

/-- Claim C1: `classify x s` is BREACH iff `x/100 - s < 0`, WARNING iff
`0 ≤ x/100 - s < 0.03`, SAFE iff `x/100 - s ≥ 0.03`; the boundary
`x/100 - s = 0` yields WARNING (not BREACH), `x/100 - s = 0.03` yields SAFE,
and a profitable position (`x > 0`) is still BREACH whenever `x/100 < s`. -/
theorem classify_boundaries (x s : ℚ) :
    (classify x s = RiskStatus.breach ↔ x / 100 - s < 0) ∧
    (classify x s = RiskStatus.warning ↔
      0 ≤ x / 100 - s ∧ x / 100 - s < 3 / 100) ∧
    (classify x s = RiskStatus.safe ↔ x / 100 - s ≥ 3 / 100) ∧
    (x / 100 - s = 0 → classify x s = RiskStatus.warning) ∧
    (x / 100 - s = 3 / 100 → classify x s = RiskStatus.safe) ∧
    (0 < x → x / 100 < s → classify x s = RiskStatus.breach) := by
  simp only [classify]
  split_ifs with h1 h2 <;>
    refine ⟨?_, ?_, ?_, ?_, ?_, ?_⟩ <;> simp_all <;> intros <;> linarith

/-- Witness for C1: boundary distance `0` gives WARNING, boundary distance
`0.03` gives SAFE, and a profitable position below its stop-loss line gives
BREACH, at concrete inputs. -/
theorem classify_boundaries_witness :
    classify 0 0 = RiskStatus.warning ∧
    classify 3 0 = RiskStatus.safe ∧
    classify 1 (2 / 100) = RiskStatus.breach :=
  ⟨(classify_boundaries 0 0).2.2.2.1 (by norm_num),
   (classify_boundaries 3 0).2.2.2.2.1 (by norm_num),
   (classify_boundaries 1 (2 / 100)).2.2.2.2.2 (by norm_num) (by norm_num)⟩

/-- Claim C2: for a successful fetch, the derived position quantities are
exactly `marketValue = c * q` (accumulated into `total_asset`),
`unrealizedProfit = (c - p) * q`, `unrealizedProfitPct = (c - p) / p * 100`
and `dayProfit = d * q`. -/
theorem position_metrics_formulas (st : CycleState) (stock : Holding)
    (d : StockData) (hcost : 0 < stock.cost_price) :
    (process_holding st stock (some d)).total_asset
      = st.total_asset + d.current_price * stock.quantity ∧
    (process_holding st stock (some d)).portfolio_data
      = st.portfolio_data ++ [mk_position_metrics stock d] ∧
    (mk_position_metrics stock d).profit
      = (d.current_price - stock.cost_price) * stock.quantity ∧
    (mk_position_metrics stock d).profit_pct
      = (d.current_price - stock.cost_price) / stock.cost_price * 100 ∧
    (mk_position_metrics stock d).day_profit
      = d.day_profit_per_share * stock.quantity :=
  ⟨rfl, rfl, rfl, rfl, rfl⟩

/-- Witness for C2 at a concrete holding and snapshot with positive cost. -/
theorem position_metrics_formulas_witness :
    (0 : ℚ) < 10 ∧
    (mk_position_metrics
      { code := "600519", name := "A", quantity := 100, cost_price := 10,
        stop_loss_pct := 8 / 100 }
      { code := "600519", name := "A", current_price := 19 / 2,
        pct_change := 0, day_profit_per_share := 1 / 2,
        history_df := [] }).profit = (19 / 2 - 10) * 100 :=
  ⟨by norm_num,
   (position_metrics_formulas init_cycle_state
      { code := "600519", name := "A", quantity := 100, cost_price := 10,
        stop_loss_pct := 8 / 100 }
      { code := "600519", name := "A", current_price := 19 / 2,
        pct_change := 0, day_profit_per_share := 1 / 2,
        history_df := [] } (by norm_num)).2.2.1⟩

/-- Claim C5: a failed fetch produces no row and leaves every accumulator
field unchanged, and the cycle over the remaining holdings proceeds exactly
as if the failed holding were absent. -/
theorem fold_failure_frame (st : CycleState) (stock : Holding)
    (fetch : Holding → Option StockData) (rest : List Holding)
    (hfail : fetch stock = none) :
    process_holding st stock none = st ∧
    (process_holding st stock none).portfolio_data = st.portfolio_data ∧
    (process_holding st stock none).total_asset = st.total_asset ∧
    (process_holding st stock none).total_profit = st.total_profit ∧
    (process_holding st stock none).total_day_profit = st.total_day_profit ∧
    run_cycle fetch (stock :: rest) = run_cycle fetch rest := by
  refine ⟨rfl, rfl, rfl, rfl, rfl, ?_⟩
  simp [run_cycle, hfail, process_holding]

/-- Witness for C5: a concrete one-holding cycle whose fetch fails equals the
empty cycle. -/
theorem fold_failure_frame_witness :
    run_cycle (fun _ => none)
      [{ code := "600519", name := "A", quantity := 100, cost_price := 10,
         stop_loss_pct := 8 / 100 }] = run_cycle (fun _ => none) [] :=
  (fold_failure_frame init_cycle_state
    { code := "600519", name := "A", quantity := 100, cost_price := 10,
      stop_loss_pct := 8 / 100 }
    (fun _ => none) [] rfl).2.2.2.2.2

/-- Claim C6 counterexample: the code returns the same sentinel `None` both
when the provider returns zero rows and when it raises, so the two failure
reasons are not distinguishable in the result, contradicting the claimed
distinct `FetchFailure(EMPTY_HISTORY)` / `FetchFailure(PROVIDER_ERROR)`
values. -/
theorem fetch_failures_indistinguishable :
    get_stock_data_individual "600519" "A" (Except.ok [])
      = get_stock_data_individual "600519" "A"
          (Except.error ProviderError.network) ∧
    get_stock_data_individual "600519" "A" (Except.ok []) = none :=
  ⟨rfl, rfl⟩

/-- Claim C6 (amended): empty history and any provider error both return the
sentinel failure value `None` to the caller — no raw exception propagates —
but the two failure reasons map to the same value and are not distinguishable
in the result. -/
theorem fetch_soft_failure (c n : String) (e : ProviderError) :
    get_stock_data_individual c n (Except.ok []) = none ∧
    get_stock_data_individual c n (Except.error e) = none :=
  ⟨rfl, rfl⟩

/-- Claim C3: each cycle total equals the sum of the corresponding per-position
quantity over exactly the holdings whose fetch succeeded (`filterMap` excludes
failures rather than adding zero), and the accumulator starts at all-zero. -/
theorem cycle_totals_sum (fetch : Holding → Option StockData)
    (hs : List Holding) :
    (run_cycle fetch hs).total_asset
      = (hs.filterMap (fun h =>
          (fetch h).map (fun d => d.current_price * h.quantity))).sum ∧
    (run_cycle fetch hs).total_profit
      = (hs.filterMap (fun h =>
          (fetch h).map (fun d =>
            (d.current_price - h.cost_price) * h.quantity))).sum ∧
    (run_cycle fetch hs).total_day_profit
      = (hs.filterMap (fun h =>
          (fetch h).map (fun d => d.day_profit_per_share * h.quantity))).sum ∧
    init_cycle_state.total_asset = 0 ∧
    init_cycle_state.total_profit = 0 ∧
    init_cycle_state.total_day_profit = 0 := by
  rw [run_cycle, foldl_state_characterization]
  refine ⟨?_, ?_, ?_, rfl, rfl, rfl⟩ <;> simp [init_cycle_state]

/-- Claim C7: if every holding's fetch fails, the cycle as a whole is reported
as `allHoldingsFailed` and produces no position rows; if at least one fetch
succeeds, the cycle completes with a non-empty row list and no cycle-level
failure. -/
theorem cycle_failure_escalation (fetch : Holding → Option StockData)
    (hs : List Holding) :
    ((∀ h ∈ hs, fetch h = none) →
      run_main_cycle fetch hs = CycleReport.allHoldingsFailed ∧
      (run_cycle fetch hs).portfolio_data = []) ∧
    ((∃ h ∈ hs, (fetch h).isSome) →
      ∃ st, run_main_cycle fetch hs = CycleReport.completed st ∧
        st.portfolio_data ≠ []) := by
  constructor
  · intro hall
    have hpd : (run_cycle fetch hs).portfolio_data = [] := by
      rw [run_cycle_portfolio_eq]
      simp only [List.filterMap_eq_nil_iff]
      intro h hmem
      rw [hall h hmem]
      rfl
    exact ⟨by simp [run_main_cycle, hpd], hpd⟩
  · rintro ⟨h, hmem, hsome⟩
    have hpd : (run_cycle fetch hs).portfolio_data ≠ [] := by
      rw [run_cycle_portfolio_eq]
      intro hnil
      rw [List.filterMap_eq_nil_iff] at hnil
      have := hnil h hmem
      cases hf : fetch h with
      | none => rw [hf] at hsome; exact Bool.noConfusion hsome
      | some d => rw [hf] at this; exact Option.noConfusion this
    refine ⟨run_cycle fetch hs, ?_, hpd⟩
    simp [run_main_cycle, List.isEmpty_iff, hpd]

/-- Witness for C7: a cycle where the only holding's fetch fails reports
`allHoldingsFailed`; a cycle where it succeeds completes. -/
theorem cycle_failure_escalation_witness :
    (run_main_cycle (fun _ => none)
      [{ code := "600519", name := "A", quantity := 100, cost_price := 10,
         stop_loss_pct := 8 / 100 }] = CycleReport.allHoldingsFailed) ∧
    (∃ st, run_main_cycle
      (fun _ => some { code := "600519", name := "A", current_price := 19 / 2,
                       pct_change := 0, day_profit_per_share := 1 / 2,
                       history_df := [] })
      [{ code := "600519", name := "A", quantity := 100, cost_price := 10,
         stop_loss_pct := 8 / 100 }] = CycleReport.completed st ∧
        st.portfolio_data ≠ []) :=
  ⟨((cycle_failure_escalation (fun _ => none)
      [{ code := "600519", name := "A", quantity := 100, cost_price := 10,
         stop_loss_pct := 8 / 100 }]).1 (by intro h _; rfl)).1,
   (cycle_failure_escalation
      (fun _ => some { code := "600519", name := "A", current_price := 19 / 2,
                       pct_change := 0, day_profit_per_share := 1 / 2,
                       history_df := [] })
      [{ code := "600519", name := "A", quantity := 100, cost_price := 10,
         stop_loss_pct := 8 / 100 }]).2
     ⟨{ code := "600519", name := "A", quantity := 100, cost_price := 10,
        stop_loss_pct := 8 / 100 }, by simp, rfl⟩⟩

/-- Claim C8: the final position-row list is exactly the in-order image of the
holdings whose fetch succeeded — the orchestrator appends one row per success
while iterating the holdings once in the supplied order. -/
theorem metrics_order_preserved (fetch : Holding → Option StockData)
    (hs : List Holding) :
    (run_cycle fetch hs).portfolio_data
      = hs.filterMap (fun h => (fetch h).map (mk_position_metrics h)) :=
  run_cycle_portfolio_eq fetch hs

/-- Claim C4: for a non-empty history `front ++ [last]`, the snapshot exists,
its `current_price` is the last row's close, with at least two rows
`pct_change = (last.close - prev.close) / prev.close * 100` and
`day_profit_per_share = last.close - prev.close` where `prev` is the
second-to-last row, and with exactly one row both default to `0` regardless of
that single row's price. -/
theorem snapshot_from_history (c n : String) (front : List HistRow)
    (last : HistRow) :
    ∃ s, get_stock_data_individual c n (Except.ok (front ++ [last]))
        = some s ∧
      s.current_price = last.close ∧
      s.history_df = front ++ [last] ∧
      (∀ front2 prev, front = front2 ++ [prev] →
        s.pct_change = (last.close - prev.close) / prev.close * 100 ∧
        s.day_profit_per_share = last.close - prev.close) ∧
      (front = [] → s.pct_change = 0 ∧ s.day_profit_per_share = 0) := by
  cases hrev : front.reverse with
  | nil =>
    have hfront : front = [] := by
      have h0 := congrArg List.reverse hrev
      simpa using h0
    subst hfront
    refine ⟨{ code := c, name := n, current_price := last.close,
              pct_change := 0, day_profit_per_share := 0,
              history_df := [] ++ [last] }, rfl, rfl, rfl, ?_,
           fun _ => ⟨rfl, rfl⟩⟩
    intro front2 prev hfp
    exact absurd hfp (by simp)
  | cons prev tail =>
    have hdf : (front ++ [last]).reverse = last :: prev :: tail := by
      rw [List.reverse_append, hrev]
      rfl
    have hres : get_stock_data_individual c n (Except.ok (front ++ [last]))
        = some { code := c, name := n, current_price := last.close,
                 pct_change := (last.close - prev.close) / prev.close * 100,
                 day_profit_per_share := last.close - prev.close,
                 history_df := front ++ [last] } := by
      simp only [get_stock_data_individual, hdf]
    refine ⟨_, hres, rfl, rfl, ?_, ?_⟩
    · intro front2 prev2 hfp
      have h2 : prev :: tail = prev2 :: front2.reverse := by
        rw [← hrev, hfp]
        simp
      obtain ⟨h3, -⟩ := List.cons_eq_cons.mp h2
      subst h3
      exact ⟨rfl, rfl⟩
    · intro hnil
      rw [hnil] at hrev
      exact absurd hrev (by simp)

/-- Witness for C4: a concrete two-row history yields a snapshot whose fields
come from the last two closes, evaluated explicitly. -/
theorem snapshot_from_history_witness :
    ∃ s, get_stock_data_individual "600519" "A"
        (Except.ok ([{ date := "d1", open_px := 9, high := 9, low := 9,
                       close := 9 }]
          ++ [{ date := "d2", open_px := 10, high := 10, low := 10,
                close := 19 / 2 }])) = some s ∧
      s.current_price = (19 : ℚ) / 2 ∧
      s.pct_change = ((19 : ℚ) / 2 - 9) / 9 * 100 ∧
      s.day_profit_per_share = (19 : ℚ) / 2 - 9 := by
  obtain ⟨s, heq, hcur, _, htwo, _⟩ :=
    snapshot_from_history "600519" "A"
      [{ date := "d1", open_px := 9, high := 9, low := 9, close := 9 }]
      { date := "d2", open_px := 10, high := 10, low := 10, close := 19 / 2 }
  obtain ⟨hpct, hday⟩ := htwo []
    { date := "d1", open_px := 9, high := 9, low := 9, close := 9 } rfl
  exact ⟨s, heq, hcur, hpct, hday⟩

/-- Positions of fetch events in the cycle trace: every fetch event sits at an
index `≡ 1 (mod 3)` and is immediately followed by the 0.2 s sleep event. -/
theorem trace_fetch_followed_by_sleep (hs : List Holding) :
    ∀ i c, (cycle_trace hs)[i]? = some (Event.fetchCall c) →
      i % 3 = 1 ∧ (cycle_trace hs)[i + 1]? = some (Event.sleepSec (2 / 10)) := by
  induction hs with
  | nil =>
    intro i c h
    simp [cycle_trace] at h
  | cons s t ih =>
    intro i c h
    match i with
    | 0 => simp [cycle_trace, iteration_trace] at h
    | 1 =>
      refine ⟨rfl, ?_⟩
      simp [cycle_trace, iteration_trace]
    | 2 => simp [cycle_trace, iteration_trace] at h
    | (m + 3) =>
      have h' : (cycle_trace t)[m]? = some (Event.fetchCall c) := by
        simpa [cycle_trace, iteration_trace] using h
      obtain ⟨hm, hnext⟩ := ih m c h'
      refine ⟨by omega, ?_⟩
      simpa [cycle_trace, iteration_trace] using hnext

/-- Claim C9: between any two fetch events of one cycle's trace there is a
0.2-second sleep event — the rate limiter runs after every iteration, so no
two fetches are issued without the delay in between. -/
theorem sleep_between_fetches (hs : List Holding) (i j : ℕ) (ci cj : String)
    (hij : i < j)
    (hi : (cycle_trace hs)[i]? = some (Event.fetchCall ci))
    (hj : (cycle_trace hs)[j]? = some (Event.fetchCall cj)) :
    ∃ k, i < k ∧ k < j ∧
      (cycle_trace hs)[k]? = some (Event.sleepSec (2 / 10)) := by
  obtain ⟨hmi, hsleep⟩ := trace_fetch_followed_by_sleep hs i ci hi
  obtain ⟨hmj, _⟩ := trace_fetch_followed_by_sleep hs j cj hj
  exact ⟨i + 1, by omega, by omega, hsleep⟩

/-- Witness for C9: in the concrete two-holding trace the fetches sit at
indices 1 and 4 and a 0.2 s sleep lies strictly between them. -/
theorem sleep_between_fetches_witness :
    ∃ k, 1 < k ∧ k < 4 ∧
      (cycle_trace
        [{ code := "c1", name := "n1", quantity := 100, cost_price := 10,
           stop_loss_pct := 8 / 100 },
         { code := "c2", name := "n2", quantity := 200, cost_price := 20,
           stop_loss_pct := 5 / 100 }])[k]?
        = some (Event.sleepSec (2 / 10)) :=
  sleep_between_fetches
    [{ code := "c1", name := "n1", quantity := 100, cost_price := 10,
       stop_loss_pct := 8 / 100 },
     { code := "c2", name := "n2", quantity := 200, cost_price := 20,
       stop_loss_pct := 5 / 100 }]
    1 4 "c1" "c2" (by norm_num) rfl rfl

end BigA
